import Mathlib

/-!
Verification of the authentication/session token subsystem of the
`GoIT_WEB_HW_14` contacts backend (files `my_contacts/services/auth.py`,
`my_contacts/routes/auth.py`, `my_contacts/routes/users.py`,
`my_contacts/repository/users.py`, `my_contacts/services/send_email.py`).

Time is modelled in seconds as `Nat`.  A JWT is modelled as its claim set
together with the key it was signed with; signature verification succeeds
exactly when the signing key equals the configured secret, and the encoding
is injective on claims (distinct claim sets give distinct tokens, equal
claim sets signed with the same key give the same token), which matches the
deterministic `jose` encoder used by the repository.
-/

namespace MyContacts

/-- Claim set of a token: `sub` (the user's email), `iat`, `exp`
(absolute instants, seconds), and an optional `scope` claim
(`"access_token"`, `"refresh_token"`, or absent for purpose tokens). -/
structure Claims where
  sub : String
  iat : Nat
  exp : Nat
  scope : Option String
deriving DecidableEq

/-- A signed token: the claim set plus the key that signed it. -/
structure Token where
  claims : Claims
  key : String
deriving DecidableEq

/-- Decode-level failures of the token codec. -/
inductive DecodeError where
  | expired
  | invalidSignature
deriving DecidableEq

/-- Modelled from the spec: the TokenCodec decode operation (the JWT
library `jose` is a third-party collaborator, its internals are not part of
this repository's sources).  Decode fails with `Expired` if the current
time is at or after `exp` — per the spec this applies regardless of
signature validity, so the expiry check comes first — and with
`InvalidSignature` if the signing key differs from the configured secret;
otherwise it returns the claims unchanged. -/
def decode (secret : String) (now : Nat) (t : Token) : Except DecodeError Claims :=
  if t.claims.exp ≤ now then .error .expired
  else if t.key ≠ secret then .error .invalidSignature
  else .ok t.claims

/-- Modelled from the spec: the TokenCodec encode operation (deterministic
signed encoding of a claim set under the configured secret). -/
def encode (secret : String) (c : Claims) : Token :=
  ⟨c, secret⟩

/-- Expiry instant computed the way the issuers in
`my_contacts/services/auth.py` do: `expires_delta` seconds from now when
given and truthy (Python `if expires_delta:` treats `0` as absent),
otherwise the per-issuer default. -/
def token_expiry (now default_ttl : Nat) : Option Nat → Nat
  | some d => if d = 0 then now + default_ttl else now + d
  | none => now + default_ttl

/-- `Auth.create_email_token` (`services/auth.py`): purpose token with
`sub`, `iat = now`, `exp = now + expires_delta` (default 5 days = 432000 s)
and no `scope` claim. -/
def create_email_token (secret sub : String) (now : Nat)
    (expires_delta : Option Nat) : Token :=
  ⟨⟨sub, now, token_expiry now 432000 expires_delta, none⟩, secret⟩

/-- `Auth.create_access_token` (`services/auth.py`): `scope =
"access_token"`, default TTL 20 minutes = 1200 s. -/
def create_access_token (secret sub : String) (now : Nat)
    (expires_delta : Option Nat) : Token :=
  ⟨⟨sub, now, token_expiry now 1200 expires_delta, some "access_token"⟩, secret⟩

/-- `Auth.create_refresh_token` (`services/auth.py`): `scope =
"refresh_token"`, default TTL 5 days = 432000 s. -/
def create_refresh_token (secret sub : String) (now : Nat)
    (expires_delta : Option Nat) : Token :=
  ⟨⟨sub, now, token_expiry now 432000 expires_delta, some "refresh_token"⟩, secret⟩

/-- An HTTP error response (`HTTPException`): status code and detail. -/
structure HTTPError where
  status : Nat
  detail : String
deriving DecidableEq

/-- Result of a request handler: a value, an `HTTPException`, or an
unhandled Python exception (`crash`, surfaced by the framework as a 500
response). -/
inductive Outcome (α : Type) where
  | ok : α → Outcome α
  | error : HTTPError → Outcome α
  | crash : String → Outcome α
deriving DecidableEq

/-- True exactly when the outcome is an `HTTPException` with status 401. -/
def unauthorized {α : Type} : Outcome α → Bool
  | .error e => e.status == 401
  | _ => false

/-- A row of the `users` table (`database/models.py`), restricted to the
fields the auth subsystem touches.  `refresh_token` is the single stored
refresh token (nullable). -/
structure User where
  username : String
  user_email : String
  password : String
  confirmed : Bool
  refresh_token : Option Token
deriving DecidableEq

/-- The user store: the rows of the `users` table. -/
abbrev Store := List User

/-- `repository/users.py get_user_by_email`: first row whose `user_email`
matches, else `None`. -/
def get_user_by_email (email : String) (db : Store) : Option User :=
  db.find? (fun u => u.user_email == email)

/-- `repository/users.py update_token`: set `user.refresh_token = token`
and commit. -/
def update_token (user : User) (token : Option Token) (db : Store) : Store :=
  db.map (fun u => if u.user_email == user.user_email
                   then { u with refresh_token := token } else u)

/-- `repository/users.py confirmed_email`: look the user up by email and
set `confirmed = True`. -/
def confirmed_email (email : String) (db : Store) : Store :=
  db.map (fun u => if u.user_email == email
                   then { u with confirmed := true } else u)

/-- `repository/users.py change_password`: set `user.password = password`
and commit. -/
def change_password (user : User) (password : String) (db : Store) : Store :=
  db.map (fun u => if u.user_email == user.user_email
                   then { u with password := password } else u)

/-- Modelled from the spec: the password hashing collaborator
(`passlib` bcrypt, external) as an opaque injective one-way function. -/
def get_password_hash (password : String) : String :=
  "bcrypt$" ++ password

/-- Modelled from the spec: `verify(plaintext, hash)` of the hashing
collaborator succeeds exactly when `hash` is the hash of `plaintext`. -/
def verify_password (plain hashed : String) : Bool :=
  hashed == get_password_hash plain

/-- `Auth.get_email_from_token` (`services/auth.py`): decode the purpose
token and return its `sub`; any decode failure raises HTTP 422
"Invalid token for email verification".  No scope check is performed. -/
def get_email_from_token (secret : String) (now : Nat) (t : Token) :
    Outcome String :=
  match decode secret now t with
  | .ok payload => .ok payload.sub
  | .error _ => .error ⟨422, "Invalid token for email verification"⟩

/-- `Auth.decode_refresh_token` (`services/auth.py`): decode, require
`scope == "refresh_token"`, return `sub`; wrong scope and decode failure
both raise HTTP 401.  A payload without a `scope` claim raises `KeyError`,
which the `except JWTError` clause does not catch. -/
def decode_refresh_token (secret : String) (now : Nat) (t : Token) :
    Outcome String :=
  match decode secret now t with
  | .ok payload =>
    match payload.scope with
    | some s =>
      if s == "refresh_token" then .ok payload.sub
      else .error ⟨401, "Invalid scope for token"⟩
    | none => .crash "KeyError: scope"
  | .error _ => .error ⟨401, "Could not validate credentials"⟩

/-- `Auth.get_current_user` (`services/auth.py`): decode the bearer token,
require `scope == "access_token"`, resolve `sub` in the user store; decode
failure, wrong scope and unknown user all raise the same HTTP 401
credentials exception.  A payload without a `scope` claim raises
`KeyError`, uncaught. -/
def get_current_user (secret : String) (now : Nat) (t : Token) (db : Store) :
    Outcome User :=
  match decode secret now t with
  | .ok payload =>
    match payload.scope with
    | some s =>
      if s == "access_token" then
        match get_user_by_email payload.sub db with
        | some user => .ok user
        | none => .error ⟨401, "Could not validate credentials for this user"⟩
      else .error ⟨401, "Could not validate credentials for this user"⟩
    | none => .crash "KeyError: scope"
  | .error _ => .error ⟨401, "Could not validate credentials for this user"⟩

/-- `routes/auth.py login`: look the user up by email; wrong password or
unknown user → 401 "Incorrect username or password"; unconfirmed → 401
"Please confirm your account"; otherwise issue an access/refresh pair,
persist the refresh token and return both. -/
def login (secret : String) (now : Nat) (username password : String)
    (db : Store) : Outcome (Token × Token) × Store :=
  match get_user_by_email username db with
  | none => (.error ⟨401, "Incorrect username or password"⟩, db)
  | some user =>
    if !verify_password password user.password then
      (.error ⟨401, "Incorrect username or password"⟩, db)
    else if !user.confirmed then
      (.error ⟨401, "Please confirm your account"⟩, db)
    else
      (.ok (create_access_token secret user.user_email now none,
            create_refresh_token secret user.user_email now none),
       update_token user (some (create_refresh_token secret user.user_email now none)) db)

/-- `routes/auth.py get_refresh_token`: decode the presented refresh token
(401 on failure or wrong scope, before any store access); look the user up
(`None` makes the subsequent `user.refresh_token` attribute access raise
`AttributeError`); on mismatch with the stored token clear it and raise
401 "Invalid refresh token"; on match issue and persist a fresh pair. -/
def get_refresh_token (secret : String) (now : Nat) (token : Token)
    (db : Store) : Outcome (Token × Token) × Store :=
  match decode_refresh_token secret now token with
  | .error e => (.error e, db)
  | .crash m => (.crash m, db)
  | .ok email =>
    match get_user_by_email email db with
    | none => (.crash "AttributeError: NoneType has no attribute refresh_token", db)
    | some user =>
      if user.refresh_token ≠ some token then
        (.error ⟨401, "Invalid refresh token"⟩, update_token user none db)
      else
        (.ok (create_access_token secret email now none,
              create_refresh_token secret email now none),
         update_token user (some (create_refresh_token secret email now none)) db)

/-- `routes/auth.py confirmed_email`: extract the email from the purpose
token (422 on decode failure); unknown user → 400 "Verification error";
already confirmed → success message with no mutation; otherwise set
`confirmed = True` and persist. -/
def confirmed_email_route (secret : String) (now : Nat) (token : Token)
    (db : Store) : Outcome String × Store :=
  match get_email_from_token secret now token with
  | .error e => (.error e, db)
  | .crash m => (.crash m, db)
  | .ok email =>
    match get_user_by_email email db with
    | none => (.error ⟨400, "Verification error"⟩, db)
    | some user =>
      if user.confirmed then (.ok "Your email is already confirmed", db)
      else (.ok "Your email is confirmed", confirmed_email email db)

/-- The `UserResponse` schema fields returned by the reset handler. -/
structure UserResponse where
  username : String
  user_email : String
  detail : String
deriving DecidableEq

/-- `routes/users.py reset_password_post`: extract the email from the
purpose token (422 on decode failure), look the user up (an absent user
makes `change_password` dereference `None`, raising `AttributeError`),
hash the new password and persist it via `change_password`. -/
def reset_password_post (secret : String) (now : Nat) (token : Token)
    (new_password : String) (db : Store) : Outcome UserResponse × Store :=
  match get_email_from_token secret now token with
  | .error e => (.error e, db)
  | .crash m => (.crash m, db)
  | .ok email =>
    match get_user_by_email email db with
    | none => (.crash "AttributeError: NoneType has no attribute password", db)
    | some user =>
      (.ok ⟨user.username, email, "Password was changed successfully"⟩,
       change_password user (get_password_hash new_password) db)

/-! ### Store lemmas -/

/-- Mapping a row transformation that does not change the predicate's
verdict commutes with `find?`. -/
theorem find?_map_comm (g : User → User) (q : User → Bool)
    (hg : ∀ x, q (g x) = q x) :
    ∀ db : Store, (db.map g).find? q = (db.find? q).map g
  | [] => rfl
  | a :: l => by
    cases h : q a with
    | true => simp [List.find?, hg, h]
    | false => simp [List.find?, hg, h, find?_map_comm g q hg l]

/-- The row returned by `get_user_by_email` has the requested email. -/
theorem get_user_by_email_sat {email : String} {db : Store} {u : User}
    (h : get_user_by_email email db = some u) : u.user_email = email := by
  have := List.find?_some h
  exact eq_of_beq this

/-- Looking up the same email after an email-preserving conditional update
returns the updated row. -/
theorem get_user_by_email_map_upd (db : Store) (email : String) (u : User)
    (f : User → User) (hf : ∀ x, (f x).user_email = x.user_email)
    (h : get_user_by_email email db = some u) :
    get_user_by_email email
      (db.map (fun x => if x.user_email == email then f x else x)) = some (f u) := by
  unfold get_user_by_email at h ⊢
  rw [find?_map_comm _ _ ?hg, h]
  case hg =>
    intro x
    by_cases hx : x.user_email == email
    · simp [hx, hf]
    · simp [hx]
  have he : u.user_email = email := get_user_by_email_sat h
  simp [he]

/-- Looking up a different email after an email-preserving conditional
update is unchanged. -/
theorem get_user_by_email_map_other (db : Store) (email e' : String)
    (f : User → User) (hf : ∀ x, (f x).user_email = x.user_email)
    (hne : e' ≠ email) :
    get_user_by_email e'
      (db.map (fun x => if x.user_email == email then f x else x)) =
      get_user_by_email e' db := by
  unfold get_user_by_email
  rw [find?_map_comm _ _ ?hg]
  case hg =>
    intro x
    by_cases hx : x.user_email == email
    · simp [hx, hf]
    · simp [hx]
  cases hfind : List.find? (fun x => x.user_email == e') db with
  | none => rfl
  | some u' =>
    have hb := List.find?_some hfind
    have he' : u'.user_email = e' := eq_of_beq hb
    simp [he', hne]

/-- `update_token` then lookup of the same email. -/
theorem get_user_by_email_update_token (db : Store) (email : String) (u : User)
    (tok : Option Token) (h : get_user_by_email email db = some u) :
    get_user_by_email email (update_token u tok db) =
      some { u with refresh_token := tok } := by
  have he : u.user_email = email := get_user_by_email_sat h
  subst he
  unfold update_token
  exact get_user_by_email_map_upd db u.user_email u
    (fun x => { x with refresh_token := tok }) (fun x => rfl) h

/-- `confirmed_email` (repository) then lookup of the same email. -/
theorem get_user_by_email_confirmed (db : Store) (email : String) (u : User)
    (h : get_user_by_email email db = some u) :
    get_user_by_email email (confirmed_email email db) =
      some { u with confirmed := true } := by
  unfold confirmed_email
  exact get_user_by_email_map_upd db email u _ (fun x => rfl) h

/-- `change_password` then lookup of the same email. -/
theorem get_user_by_email_change_password (db : Store) (email : String)
    (u : User) (pw : String) (h : get_user_by_email email db = some u) :
    get_user_by_email email (change_password u pw db) =
      some { u with password := pw } := by
  have he : u.user_email = email := get_user_by_email_sat h
  subst he
  unfold change_password
  exact get_user_by_email_map_upd db u.user_email u
    (fun x => { x with password := pw }) (fun x => rfl) h

/-! ### Claims -/

/-- C6: for every claims set whose `exp` lies in the future, decoding the
token produced by encoding it under the configured secret succeeds and
returns the claims unchanged (in particular `sub` is recovered). -/
theorem encode_decode_roundtrip (secret : String) (c : Claims) (now : Nat)
    (h : now < c.exp) :
    decode secret now (encode secret c) = .ok c := by
  unfold decode encode
  rw [if_neg (Nat.not_le.mpr h), if_neg (fun hn => hn rfl)]

/-- Witness for C6 at a concrete claims set. -/
theorem encode_decode_roundtrip_witness :
    (0 : Nat) < 10 ∧ decode "k" 0 (encode "k" ⟨"e", 0, 10, none⟩) = .ok ⟨"e", 0, 10, none⟩ :=
  ⟨by decide, encode_decode_roundtrip "k" ⟨"e", 0, 10, none⟩ 0 (by decide)⟩

/-- C7: decode of any token whose `exp` is at or before the current time
fails with `Expired`, regardless of the signing key; in particular a
password-reset token issued via `create_email_token` with the 10-minute
TTL (600 s) used by `send_reset_password_email` fails decode at any
instant from 600 seconds after issuance on. -/
theorem expiry_dominates (secret : String) (tok : Token) (now : Nat)
    (h : tok.claims.exp ≤ now) :
    decode secret now tok = .error .expired ∧
    ∀ (email : String) (t k : Nat),
      decode secret (t + 600 + k) (create_email_token secret email t (some 600)) =
        .error .expired := by
  constructor
  · unfold decode
    rw [if_pos h]
  · intro email t k
    unfold decode create_email_token token_expiry
    simp

/-- Witness for C7 at a concrete expired token. -/
theorem expiry_dominates_witness :
    (⟨⟨"e", 0, 5, none⟩, "other"⟩ : Token).claims.exp ≤ 7 ∧
    (decode "k" 7 ⟨⟨"e", 0, 5, none⟩, "other"⟩ = .error .expired ∧
     ∀ (email : String) (t k : Nat),
       decode "k" (t + 600 + k) (create_email_token "k" email t (some 600)) =
         .error .expired) :=
  ⟨by decide, expiry_dominates "k" ⟨⟨"e", 0, 5, none⟩, "other"⟩ 7 (by decide)⟩

/-- C2: scope separation — an access token presented to the refresh
decoder yields HTTP 401, and a refresh token presented to the session
validator yields HTTP 401, whatever the current time and store. -/
theorem scope_separation (secret email : String) (t_iss now : Nat) (db : Store) :
    unauthorized (decode_refresh_token secret now
      (create_access_token secret email t_iss none)) = true ∧
    unauthorized (get_current_user secret now
      (create_refresh_token secret email t_iss none) db) = true := by
  constructor
  · unfold decode_refresh_token decode create_access_token token_expiry
    by_cases h : t_iss + 1200 ≤ now
    · simp [h, unauthorized]
    · simp [h, unauthorized]
  · unfold get_current_user decode create_refresh_token token_expiry
    by_cases h : t_iss + 432000 ≤ now
    · simp [h, unauthorized]
    · simp [h, unauthorized]

/-- C4: when the presented token fails to decode or decodes with a scope
claim other than "refresh_token", the refresh endpoint returns HTTP 401
and leaves the user store unchanged (no stored refresh token is modified
or cleared). -/
theorem refresh_early_failure_atomic (secret : String) (now : Nat)
    (t : Token) (db : Store)
    (h : (∃ err, decode secret now t = .error err) ∨
         (∃ c s, decode secret now t = .ok c ∧ c.scope = some s ∧ s ≠ "refresh_token")) :
    unauthorized (get_refresh_token secret now t db).1 = true ∧
    (get_refresh_token secret now t db).2 = db := by
  unfold get_refresh_token decode_refresh_token
  rcases h with ⟨err, he⟩ | ⟨c, s, hc, hs, hne⟩
  · rw [he]
    exact ⟨rfl, rfl⟩
  · simp only [hc, hs]
    rw [if_neg (by simp [hne])]
    exact ⟨rfl, rfl⟩

/-- Witness for C4 at an access token (wrong scope) over the empty store. -/
theorem refresh_early_failure_atomic_witness :
    ((∃ err, decode "k" 0 (create_access_token "k" "e" 0 none) = .error err) ∨
      (∃ c s, decode "k" 0 (create_access_token "k" "e" 0 none) = .ok c ∧
        c.scope = some s ∧ s ≠ "refresh_token")) ∧
    (unauthorized (get_refresh_token "k" 0 (create_access_token "k" "e" 0 none) []).1 = true ∧
     (get_refresh_token "k" 0 (create_access_token "k" "e" 0 none) []).2 = []) :=
  ⟨.inr ⟨⟨"e", 0, 1200, some "access_token"⟩, "access_token", rfl, rfl, by decide⟩,
   refresh_early_failure_atomic "k" 0 (create_access_token "k" "e" 0 none) []
     (.inr ⟨⟨"e", 0, 1200, some "access_token"⟩, "access_token", rfl, rfl, by decide⟩)⟩

/-- C3 counterexample: presenting a well-formed, freshly issued refresh
token whose subject has no user record makes the refresh endpoint crash
with an uncaught AttributeError (surfaced as HTTP 500), not fail with
HTTP 401. -/
theorem refresh_unknown_user_counterexample :
    (get_refresh_token "k" 1 (create_refresh_token "k" "e" 0 none) []).1 =
      .crash "AttributeError: NoneType has no attribute refresh_token" ∧
    unauthorized (get_refresh_token "k" 1 (create_refresh_token "k" "e" 0 none) []).1 = false :=
  ⟨rfl, rfl⟩

/-- C3 amended: when the presented token decodes successfully with scope
refresh_token but the subject email resolves to no user record, the
refresh endpoint raises an uncaught AttributeError (surfaced as HTTP 500)
and leaves the store unchanged, rather than failing with HTTP 401. -/
theorem refresh_unknown_user_crashes (secret : String) (now : Nat)
    (t : Token) (email : String) (db : Store)
    (hdec : decode_refresh_token secret now t = .ok email)
    (habs : get_user_by_email email db = none) :
    get_refresh_token secret now t db =
      (.crash "AttributeError: NoneType has no attribute refresh_token", db) := by
  unfold get_refresh_token
  simp only [hdec, habs]

/-- Witness for the amended C3 at a concrete token and the empty store. -/
theorem refresh_unknown_user_crashes_witness :
    decode_refresh_token "k" 1 (create_refresh_token "k" "w" 0 none) = .ok "w" ∧
    get_user_by_email "w" [] = none ∧
    get_refresh_token "k" 1 (create_refresh_token "k" "w" 0 none) [] =
      (.crash "AttributeError: NoneType has no attribute refresh_token", []) :=
  ⟨rfl, rfl, refresh_unknown_user_crashes "k" 1 (create_refresh_token "k" "w" 0 none) "w" [] rfl rfl⟩

/-- C5 counterexample: a decode failure of a purpose token during email
confirmation (here: an expired password-reset-style token) is surfaced as
HTTP 422 Unprocessable Entity, not HTTP 401. -/
theorem purpose_decode_failure_counterexample :
    (confirmed_email_route "k" 600 (create_email_token "k" "e" 0 (some 600)) []).1 =
      .error ⟨422, "Invalid token for email verification"⟩ ∧
    unauthorized
      (confirmed_email_route "k" 600 (create_email_token "k" "e" 0 (some 600)) []).1 = false :=
  ⟨rfl, rfl⟩

/-- C5 amended: decode failures on the session paths (session validation
and refresh) are surfaced as HTTP 401 with no state change, and a
UserNotFound during email confirmation as HTTP 400; but a decode failure
of a purpose token (email confirmation or password reset) is surfaced as
HTTP 422 Unprocessable Entity, not 401. -/
theorem error_taxonomy_amended (secret pw : String) (now : Nat)
    (t t2 t3 : Token) (e2 : String) (db : Store) (derr : DecodeError)
    (hfail : decode secret now t = .error derr)
    (hok2 : get_email_from_token secret now t2 = .ok e2)
    (habs : get_user_by_email e2 db = none)
    (hws : ∃ c s, decode secret now t3 = .ok c ∧ c.scope = some s ∧ s ≠ "refresh_token") :
    (confirmed_email_route secret now t db).1 =
      .error ⟨422, "Invalid token for email verification"⟩ ∧
    (reset_password_post secret now t pw db).1 =
      .error ⟨422, "Invalid token for email verification"⟩ ∧
    unauthorized (get_current_user secret now t db) = true ∧
    get_refresh_token secret now t db =
      (.error ⟨401, "Could not validate credentials"⟩, db) ∧
    (get_refresh_token secret now t3 db).1 = .error ⟨401, "Invalid scope for token"⟩ ∧
    (get_refresh_token secret now t3 db).2 = db ∧
    (confirmed_email_route secret now t2 db).1 = .error ⟨400, "Verification error"⟩ := by
  refine ⟨?_, ?_, ?_, ?_, ?_, ?_, ?_⟩
  · unfold confirmed_email_route get_email_from_token
    simp only [hfail]
  · unfold reset_password_post get_email_from_token
    simp only [hfail]
  · unfold get_current_user
    simp only [hfail, unauthorized]
    rfl
  · unfold get_refresh_token decode_refresh_token
    simp only [hfail]
  · obtain ⟨c, s, hc, hs, hne⟩ := hws
    unfold get_refresh_token decode_refresh_token
    simp only [hc, hs]
    rw [if_neg (by simp [hne])]
  · obtain ⟨c, s, hc, hs, hne⟩ := hws
    unfold get_refresh_token decode_refresh_token
    simp only [hc, hs]
    rw [if_neg (by simp [hne])]
  · unfold confirmed_email_route
    simp only [hok2, habs]

/-- Witness for the amended C5: an expired purpose token, a valid token
whose subject is unknown, and a live access token (wrong scope for
refresh), over the empty store. -/
theorem error_taxonomy_amended_witness :
    decode "k" 600 (create_email_token "k" "e" 0 (some 600)) = .error .expired ∧
    get_email_from_token "k" 600 (create_email_token "k" "w" 0 none) = .ok "w" ∧
    get_user_by_email "w" ([] : Store) = none ∧
    (∃ c s, decode "k" 600 (create_access_token "k" "e" 0 none) = .ok c ∧
      c.scope = some s ∧ s ≠ "refresh_token") ∧
    ((confirmed_email_route "k" 600 (create_email_token "k" "e" 0 (some 600)) []).1 =
       .error ⟨422, "Invalid token for email verification"⟩ ∧
     (reset_password_post "k" 600 (create_email_token "k" "e" 0 (some 600)) "p" []).1 =
       .error ⟨422, "Invalid token for email verification"⟩ ∧
     unauthorized (get_current_user "k" 600 (create_email_token "k" "e" 0 (some 600)) []) = true ∧
     get_refresh_token "k" 600 (create_email_token "k" "e" 0 (some 600)) [] =
       (.error ⟨401, "Could not validate credentials"⟩, []) ∧
     (get_refresh_token "k" 600 (create_access_token "k" "e" 0 none) []).1 =
       .error ⟨401, "Invalid scope for token"⟩ ∧
     (get_refresh_token "k" 600 (create_access_token "k" "e" 0 none) []).2 = [] ∧
     (confirmed_email_route "k" 600 (create_email_token "k" "w" 0 none) []).1 =
       .error ⟨400, "Verification error"⟩) :=
  ⟨rfl, rfl, rfl,
   ⟨⟨"e", 0, 1200, some "access_token"⟩, "access_token", rfl, rfl, by decide⟩,
   error_taxonomy_amended "k" "p" 600 (create_email_token "k" "e" 0 (some 600))
     (create_email_token "k" "w" 0 none) (create_access_token "k" "e" 0 none) "w" [] .expired
     rfl rfl rfl
     ⟨⟨"e", 0, 1200, some "access_token"⟩, "access_token", rfl, rfl, by decide⟩⟩

/-- A purpose token issued by `create_email_token` decodes to its subject
before expiry. -/
theorem get_email_from_token_issued (secret email : String) (t0 n : Nat)
    (d : Option Nat) (h : n < token_expiry t0 432000 d) :
    get_email_from_token secret n (create_email_token secret email t0 d) = .ok email := by
  unfold get_email_from_token decode create_email_token
  rw [if_neg (Nat.not_le.mpr h), if_neg (fun hn => hn rfl)]

/-- The confirmation route, on a fresh default-TTL confirmation token for
a present user, reduces to the confirmed-flag case split. -/
theorem confirmed_email_route_found (secret email : String) (n t0 : Nat)
    (db : Store) (user : User) (hn : n < t0 + 432000)
    (hfind : get_user_by_email email db = some user) :
    confirmed_email_route secret n (create_email_token secret email t0 none) db =
      if user.confirmed then (.ok "Your email is already confirmed", db)
      else (.ok "Your email is confirmed", confirmed_email email db) := by
  unfold confirmed_email_route
  simp only [get_email_from_token_issued secret email t0 n none hn, hfind]

/-- C8: email confirmation is idempotent — consuming a valid confirmation
token for an already-confirmed user returns the success message and
performs no mutation, and two consecutive consumptions of valid
confirmation tokens for the same user both succeed and leave
`confirmed = true`. -/
theorem confirm_email_idempotent (secret email : String) (t0 n1 n2 : Nat)
    (db : Store) (user : User)
    (hfind : get_user_by_email email db = some user)
    (h1 : n1 < t0 + 432000) (h2 : n2 < t0 + 432000) :
    (user.confirmed = true →
      confirmed_email_route secret n1 (create_email_token secret email t0 none) db =
        (.ok "Your email is already confirmed", db)) ∧
    (∃ m, (confirmed_email_route secret n1 (create_email_token secret email t0 none) db).1 =
      .ok m) ∧
    (∃ m, (confirmed_email_route secret n2 (create_email_token secret email t0 none)
      (confirmed_email_route secret n1 (create_email_token secret email t0 none) db).2).1 =
        .ok m) ∧
    get_user_by_email email
      (confirmed_email_route secret n2 (create_email_token secret email t0 none)
        (confirmed_email_route secret n1 (create_email_token secret email t0 none) db).2).2 =
      some { user with confirmed := true } := by
  cases hc : user.confirmed with
  | true =>
    have huser : { user with confirmed := true } = user := by rw [← hc]
    have e1 : confirmed_email_route secret n1 (create_email_token secret email t0 none) db =
        (.ok "Your email is already confirmed", db) := by
      rw [confirmed_email_route_found secret email n1 t0 db user h1 hfind, if_pos hc]
    have e2 : confirmed_email_route secret n2 (create_email_token secret email t0 none) db =
        (.ok "Your email is already confirmed", db) := by
      rw [confirmed_email_route_found secret email n2 t0 db user h2 hfind, if_pos hc]
    rw [e1]
    exact ⟨fun _ => rfl, ⟨_, rfl⟩, ⟨_, by rw [e2]⟩, by rw [e2, huser]; exact hfind⟩
  | false =>
    have e1 : confirmed_email_route secret n1 (create_email_token secret email t0 none) db =
        (.ok "Your email is confirmed", confirmed_email email db) := by
      rw [confirmed_email_route_found secret email n1 t0 db user h1 hfind, if_neg (by simp [hc])]
    have hfind1 : get_user_by_email email (confirmed_email email db) =
        some { user with confirmed := true } :=
      get_user_by_email_confirmed db email user hfind
    have e2 : confirmed_email_route secret n2 (create_email_token secret email t0 none)
        (confirmed_email email db) =
        (.ok "Your email is already confirmed", confirmed_email email db) := by
      rw [confirmed_email_route_found secret email n2 t0 (confirmed_email email db)
        { user with confirmed := true } h2 hfind1, if_pos rfl]
    rw [e1]
    exact ⟨fun hcc => absurd hcc (by simp [hc]), ⟨_, rfl⟩, ⟨_, by rw [e2]⟩,
      by rw [e2]; exact hfind1⟩

/-- Witness for C8 at a one-row store holding an unconfirmed user. -/
theorem confirm_email_idempotent_witness :
    get_user_by_email "e" [⟨"n", "e", "p", false, none⟩] = some ⟨"n", "e", "p", false, none⟩ ∧
    (1 : Nat) < 0 + 432000 ∧ (2 : Nat) < 0 + 432000 ∧
    (((⟨"n", "e", "p", false, none⟩ : User).confirmed = true →
      confirmed_email_route "k" 1 (create_email_token "k" "e" 0 none)
          [⟨"n", "e", "p", false, none⟩] =
        (.ok "Your email is already confirmed", [⟨"n", "e", "p", false, none⟩])) ∧
     (∃ m, (confirmed_email_route "k" 1 (create_email_token "k" "e" 0 none)
        [⟨"n", "e", "p", false, none⟩]).1 = .ok m) ∧
     (∃ m, (confirmed_email_route "k" 2 (create_email_token "k" "e" 0 none)
        (confirmed_email_route "k" 1 (create_email_token "k" "e" 0 none)
          [⟨"n", "e", "p", false, none⟩]).2).1 = .ok m) ∧
     get_user_by_email "e"
        (confirmed_email_route "k" 2 (create_email_token "k" "e" 0 none)
          (confirmed_email_route "k" 1 (create_email_token "k" "e" 0 none)
            [⟨"n", "e", "p", false, none⟩]).2).2 =
        some { (⟨"n", "e", "p", false, none⟩ : User) with confirmed := true }) :=
  ⟨rfl, by decide, by decide,
   confirm_email_idempotent "k" "e" 0 1 2 [⟨"n", "e", "p", false, none⟩]
     ⟨"n", "e", "p", false, none⟩ rfl (by decide) (by decide)⟩

/-- C9: consuming a valid password-reset token changes only the user's
`password` field (to the hash of the new password), leaves
`refresh_token` and `confirmed` untouched, and leaves every other user's
row unchanged. -/
theorem reset_password_footprint (secret email pw : String) (t0 now : Nat)
    (db : Store) (user : User)
    (hfind : get_user_by_email email db = some user)
    (hnow : now < t0 + 600) :
    (reset_password_post secret now (create_email_token secret email t0 (some 600)) pw db).1 =
      .ok ⟨user.username, email, "Password was changed successfully"⟩ ∧
    get_user_by_email email
      (reset_password_post secret now (create_email_token secret email t0 (some 600)) pw db).2 =
      some { user with password := get_password_hash pw } ∧
    ∀ e', e' ≠ email →
      get_user_by_email e'
        (reset_password_post secret now (create_email_token secret email t0 (some 600)) pw db).2 =
        get_user_by_email e' db := by
  have hd : get_email_from_token secret now (create_email_token secret email t0 (some 600)) =
      .ok email :=
    get_email_from_token_issued secret email t0 now (some 600)
      (by simpa [token_expiry] using hnow)
  have he := get_user_by_email_sat hfind
  subst he
  unfold reset_password_post
  simp only [hd, hfind]
  refine ⟨by trivial, get_user_by_email_change_password db user.user_email user
    (get_password_hash pw) hfind, ?_⟩
  intro e' hne
  unfold change_password
  exact get_user_by_email_map_other db user.user_email e'
    (fun x => { x with password := get_password_hash pw }) (fun x => rfl) hne

/-- Witness for C9 at a one-row store. -/
theorem reset_password_footprint_witness :
    get_user_by_email "e" [⟨"n", "e", "old", true, none⟩] =
      some ⟨"n", "e", "old", true, none⟩ ∧
    (5 : Nat) < 0 + 600 ∧
    ((reset_password_post "k" 5 (create_email_token "k" "e" 0 (some 600)) "new"
        [⟨"n", "e", "old", true, none⟩]).1 =
      .ok ⟨"n", "e", "Password was changed successfully"⟩ ∧
     get_user_by_email "e"
        (reset_password_post "k" 5 (create_email_token "k" "e" 0 (some 600)) "new"
          [⟨"n", "e", "old", true, none⟩]).2 =
        some { (⟨"n", "e", "old", true, none⟩ : User) with password := get_password_hash "new" } ∧
     ∀ e', e' ≠ "e" →
       get_user_by_email e'
          (reset_password_post "k" 5 (create_email_token "k" "e" 0 (some 600)) "new"
            [⟨"n", "e", "old", true, none⟩]).2 =
          get_user_by_email e' [⟨"n", "e", "old", true, none⟩]) :=
  ⟨rfl, by decide,
   reset_password_footprint "k" "e" "new" 0 5 [⟨"n", "e", "old", true, none⟩]
     ⟨"n", "e", "old", true, none⟩ rfl (by decide)⟩

/-- C10: the purpose-token decoder performs no scope check — a validly
signed, unexpired access or refresh token is accepted and returns its
subject, and an access token can drive the email-confirmation and
password-reset flows to success. -/
theorem purpose_consumption_no_scope_check (secret email pw : String)
    (t_iss now : Nat) (db : Store) (user : User)
    (hfind : get_user_by_email email db = some user)
    (hacc : now < t_iss + 1200) (href : now < t_iss + 432000) :
    get_email_from_token secret now (create_access_token secret email t_iss none) = .ok email ∧
    get_email_from_token secret now (create_refresh_token secret email t_iss none) = .ok email ∧
    (∃ m, (confirmed_email_route secret now (create_access_token secret email t_iss none) db).1 =
      .ok m) ∧
    (reset_password_post secret now (create_access_token secret email t_iss none) pw db).1 =
      .ok ⟨user.username, email, "Password was changed successfully"⟩ := by
  have ha : get_email_from_token secret now (create_access_token secret email t_iss none) =
      .ok email := by
    unfold get_email_from_token decode create_access_token token_expiry
    rw [if_neg (Nat.not_le.mpr hacc), if_neg (fun hn => hn rfl)]
  have hr : get_email_from_token secret now (create_refresh_token secret email t_iss none) =
      .ok email := by
    unfold get_email_from_token decode create_refresh_token token_expiry
    rw [if_neg (Nat.not_le.mpr href), if_neg (fun hn => hn rfl)]
  refine ⟨ha, hr, ?_, ?_⟩
  · unfold confirmed_email_route
    simp only [ha, hfind]
    cases hc : user.confirmed with
    | true => exact ⟨"Your email is already confirmed", by simp⟩
    | false => exact ⟨"Your email is confirmed", by simp⟩
  · unfold reset_password_post
    simp only [ha, hfind]

/-- Witness for C10 at a one-row store. -/
theorem purpose_consumption_no_scope_check_witness :
    get_user_by_email "e" [⟨"n", "e", "p", true, none⟩] = some ⟨"n", "e", "p", true, none⟩ ∧
    (3 : Nat) < 0 + 1200 ∧ (3 : Nat) < 0 + 432000 ∧
    (get_email_from_token "k" 3 (create_access_token "k" "e" 0 none) = .ok "e" ∧
     get_email_from_token "k" 3 (create_refresh_token "k" "e" 0 none) = .ok "e" ∧
     (∃ m, (confirmed_email_route "k" 3 (create_access_token "k" "e" 0 none)
        [⟨"n", "e", "p", true, none⟩]).1 = .ok m) ∧
     (reset_password_post "k" 3 (create_access_token "k" "e" 0 none) "new"
        [⟨"n", "e", "p", true, none⟩]).1 =
       .ok ⟨"n", "e", "Password was changed successfully"⟩) :=
  ⟨rfl, by decide, by decide,
   purpose_consumption_no_scope_check "k" "e" "new" 0 3 [⟨"n", "e", "p", true, none⟩]
     ⟨"n", "e", "p", true, none⟩ rfl (by decide) (by decide)⟩

/-- A refresh token issued by `create_refresh_token` passes the refresh
decoder before expiry and yields its subject. -/
theorem decode_refresh_token_issued (secret email : String) (t0 n : Nat)
    (h : n < t0 + 432000) :
    decode_refresh_token secret n (create_refresh_token secret email t0 none) = .ok email := by
  unfold decode_refresh_token decode create_refresh_token token_expiry
  rw [if_neg (Nat.not_le.mpr h), if_neg (fun hn => hn rfl)]
  rfl

/-- The refresh endpoint, once the token decodes and the user is found,
reduces to the stored-token comparison. -/
theorem get_refresh_token_step (secret email : String) (now : Nat)
    (t : Token) (db : Store) (user : User)
    (hdec : decode_refresh_token secret now t = .ok email)
    (hfind : get_user_by_email email db = some user) :
    get_refresh_token secret now t db =
      if user.refresh_token ≠ some t then
        (.error ⟨401, "Invalid refresh token"⟩, update_token user none db)
      else
        (.ok (create_access_token secret email now none,
              create_refresh_token secret email now none),
         update_token user (some (create_refresh_token secret email now none)) db) := by
  unfold get_refresh_token
  simp only [hdec, hfind]

/-- Refresh tokens issued at different instants differ (their `iat` and
`exp` claims differ). -/
theorem create_refresh_token_ne (secret email : String) {t0 t1 : Nat} (h : t0 ≠ t1) :
    create_refresh_token secret email t0 none ≠ create_refresh_token secret email t1 none := by
  intro hEq
  apply h
  have := congrArg (fun tk => tk.claims.iat) hEq
  simpa [create_refresh_token] using this

/-- A successful login issues a fresh access/refresh pair and persists the
refresh token. -/
theorem login_success (secret pw : String) (now : Nat) (db : Store)
    (email : String) (user : User)
    (hfind : get_user_by_email email db = some user)
    (hpw : verify_password pw user.password = true)
    (hconf : user.confirmed = true) :
    login secret now email pw db =
      (.ok (create_access_token secret email now none,
            create_refresh_token secret email now none),
       update_token user (some (create_refresh_token secret email now none)) db) := by
  have he := get_user_by_email_sat hfind
  subst he
  unfold login
  simp [hfind, hpw, hconf]

/-- C1: refresh rotation is single-use — after a fresh login persists
refresh token r0, a first refresh call with r0 succeeds and persists the
newly issued r1; a second call with r0 then fails with HTTP 401 and
clears the stored refresh token; a subsequent call with r1 also fails
with HTTP 401. -/
theorem refresh_rotation_single_use (secret pw email : String)
    (db : Store) (user : User) (t0 t1 t2 t3 : Nat)
    (hfind : get_user_by_email email db = some user)
    (hpw : verify_password pw user.password = true)
    (hconf : user.confirmed = true)
    (h01 : t0 ≠ t1)
    (ht1 : t1 < t0 + 432000) (ht2 : t2 < t0 + 432000) (ht3 : t3 < t1 + 432000) :
    ∃ db1 db2 db3,
      login secret t0 email pw db =
        (.ok (create_access_token secret email t0 none,
              create_refresh_token secret email t0 none), db1) ∧
      get_refresh_token secret t1 (create_refresh_token secret email t0 none) db1 =
        (.ok (create_access_token secret email t1 none,
              create_refresh_token secret email t1 none), db2) ∧
      get_user_by_email email db2 =
        some { user with refresh_token := some (create_refresh_token secret email t1 none) } ∧
      get_refresh_token secret t2 (create_refresh_token secret email t0 none) db2 =
        (.error ⟨401, "Invalid refresh token"⟩, db3) ∧
      get_user_by_email email db3 = some { user with refresh_token := none } ∧
      (get_refresh_token secret t3 (create_refresh_token secret email t1 none) db3).1 =
        .error ⟨401, "Invalid refresh token"⟩ := by
  have hlogin := login_success secret pw t0 db email user hfind hpw hconf
  have hfind1 := get_user_by_email_update_token db email user
    (some (create_refresh_token secret email t0 none)) hfind
  have hdec1 := decode_refresh_token_issued secret email t0 t1 ht1
  have e1 := get_refresh_token_step secret email t1
    (create_refresh_token secret email t0 none)
    (update_token user (some (create_refresh_token secret email t0 none)) db)
    { user with refresh_token := some (create_refresh_token secret email t0 none) }
    hdec1 hfind1
  rw [if_neg (fun hn => hn rfl)] at e1
  have hfind2 := get_user_by_email_update_token
    (update_token user (some (create_refresh_token secret email t0 none)) db) email
    { user with refresh_token := some (create_refresh_token secret email t0 none) }
    (some (create_refresh_token secret email t1 none)) hfind1
  have hdec2 := decode_refresh_token_issued secret email t0 t2 ht2
  have e2 := get_refresh_token_step secret email t2
    (create_refresh_token secret email t0 none)
    (update_token { user with refresh_token := some (create_refresh_token secret email t0 none) }
      (some (create_refresh_token secret email t1 none))
      (update_token user (some (create_refresh_token secret email t0 none)) db))
    { user with refresh_token := some (create_refresh_token secret email t1 none) }
    hdec2 hfind2
  rw [if_pos (fun hEq => create_refresh_token_ne secret email h01
    ((Option.some.inj hEq).symm))] at e2
  have hfind3 := get_user_by_email_update_token
    (update_token { user with refresh_token := some (create_refresh_token secret email t0 none) }
      (some (create_refresh_token secret email t1 none))
      (update_token user (some (create_refresh_token secret email t0 none)) db)) email
    { user with refresh_token := some (create_refresh_token secret email t1 none) }
    none hfind2
  have hdec3 := decode_refresh_token_issued secret email t1 t3 ht3
  have e3 := get_refresh_token_step secret email t3
    (create_refresh_token secret email t1 none)
    (update_token { user with refresh_token := some (create_refresh_token secret email t1 none) }
      none
      (update_token { user with refresh_token := some (create_refresh_token secret email t0 none) }
        (some (create_refresh_token secret email t1 none))
        (update_token user (some (create_refresh_token secret email t0 none)) db)))
    { user with refresh_token := none } hdec3 hfind3
  rw [if_pos (fun hEq => Option.noConfusion hEq)] at e3
  exact ⟨_, _, _, hlogin, e1, hfind2, e2, hfind3, by rw [e3]⟩

/-- Witness for C1 at a one-row store holding a confirmed user whose
stored password hash matches. -/
theorem refresh_rotation_single_use_witness :
    get_user_by_email "e" [⟨"n", "e", get_password_hash "p", true, none⟩] =
      some ⟨"n", "e", get_password_hash "p", true, none⟩ ∧
    verify_password "p" (⟨"n", "e", get_password_hash "p", true, none⟩ : User).password = true ∧
    (⟨"n", "e", get_password_hash "p", true, none⟩ : User).confirmed = true ∧
    (0 : Nat) ≠ 1 ∧ (1 : Nat) < 0 + 432000 ∧ (2 : Nat) < 0 + 432000 ∧ (3 : Nat) < 1 + 432000 ∧
    (∃ db1 db2 db3,
      login "k" 0 "e" "p" [⟨"n", "e", get_password_hash "p", true, none⟩] =
        (.ok (create_access_token "k" "e" 0 none, create_refresh_token "k" "e" 0 none), db1) ∧
      get_refresh_token "k" 1 (create_refresh_token "k" "e" 0 none) db1 =
        (.ok (create_access_token "k" "e" 1 none, create_refresh_token "k" "e" 1 none), db2) ∧
      get_user_by_email "e" db2 =
        some { (⟨"n", "e", get_password_hash "p", true, none⟩ : User) with
          refresh_token := some (create_refresh_token "k" "e" 1 none) } ∧
      get_refresh_token "k" 2 (create_refresh_token "k" "e" 0 none) db2 =
        (.error ⟨401, "Invalid refresh token"⟩, db3) ∧
      get_user_by_email "e" db3 =
        some { (⟨"n", "e", get_password_hash "p", true, none⟩ : User) with
          refresh_token := none } ∧
      (get_refresh_token "k" 3 (create_refresh_token "k" "e" 1 none) db3).1 =
        .error ⟨401, "Invalid refresh token"⟩) :=
  ⟨rfl, rfl, rfl, by decide, by decide, by decide, by decide,
   refresh_rotation_single_use "k" "p" "e" [⟨"n", "e", get_password_hash "p", true, none⟩]
     ⟨"n", "e", get_password_hash "p", true, none⟩ 0 1 2 3 rfl rfl rfl
     (by decide) (by decide) (by decide) (by decide)⟩

end MyContacts
